import Mathlib

/-!
Shallow embedding of the chip8 virtual-machine core (src/vm.cc, src/bit.h,
together with the Display collaborator's set_pixel/clear/buzz), and theorems
settling the specification's claims about opcode semantics, the call stack,
the timers, and program loading.

Machine integers are modelled as `Nat`, with an explicit `% 256` or
`% 65536` exactly where the C++ unsigned arithmetic wraps.  The byte
containers (registers, call stack, memory, pixel buffer) are modelled as
total functions from `Nat`, updated pointwise; an access the C++ performs
out of array bounds thereby has a total meaning in the model, which lets
the unchecked out-of-bounds copy in `load` be stated explicitly.
-/

namespace chip8

/-- Model of bit.h `nth_mask`: mask for the nth 4-bit chunk of a 16-bit word. -/
def nth_mask (n : Nat) : Nat := 0xF <<< (4 * (4 - n))

/-- Model of bit.h `nth_4bit`: the nth 4-bit chunk of `x` (n = 1 is the top nibble). -/
def nth_4bit (x n : Nat) : Nat := (x &&& nth_mask n) >>> (4 * (4 - n))

/-- Model of bit.h `bottom_12bit`. -/
def bottom_12bit (x : Nat) : Nat := x &&& 0x0FFF

/-- Model of bit.h `bottom_8bit`. -/
def bottom_8bit (x : Nat) : Nat := x &&& 0xFF

/-- Model of bit.h `top_8bit`. -/
def top_8bit (x : Nat) : Nat := (x &&& 0xFF00) >>> 8

/-- Model of bit.h `lsb`. -/
def lsb (x : Nat) : Nat := x &&& 0b1

/-- Model of bit.h `msb`: 1 when bit 7 of `x` is set, else 0. -/
def msb (x : Nat) : Nat := if x &&& (0b1 <<< 7) ≠ 0 then 1 else 0

/-- Model of bit.h `nth_bit`: bits as an array where 0 = msb, 7 = lsb. -/
def nth_bit (x n : Nat) : Bool := ((x >>> (7 - n)) &&& 0b1) == 1

/-- Pointwise update of a function-modelled array cell. -/
def updateFn {α : Type} (f : Nat → α) (i : Nat) (v : α) : Nat → α :=
  fun j => if j = i then v else f j

/-- Model of the external Display collaborator's observable state: the pixel
buffer (indexed row-major, 64 wide), the keypad state, the next key a blocking
wait would return, and a count of buzz pulses. -/
structure Display where
  pixels : Nat → Bool
  keys : Nat → Bool
  pendingKey : Nat
  buzzes : Nat

/-- Model of `Display::clear`: all pixels off. -/
def Display.clear (d : Display) : Display := {d with pixels := fun _ => false}

/-- Model of `Display::buzz`: one audible pulse. -/
def Display.buzz (d : Display) : Display := {d with buzzes := d.buzzes + 1}

/-- Model of `Display::set_pixel`: wraps the coordinates to 64x32, XORs the
pixel with `value`, and reports whether a set pixel became unset. -/
def Display.set_pixel (d : Display) (x y : Nat) (value : Bool) : Bool × Display :=
  let wrapped_x := x % 64
  let wrapped_y := y % 32
  let idx := wrapped_y * 64 + wrapped_x
  let old_value := d.pixels idx
  let new_value := xor old_value value
  (!new_value && old_value, {d with pixels := updateFn d.pixels idx new_value})

/-- State of `chip8::VM`: program counter, index register, stack pointer, the
two timers, the register file, the call stack, memory, the PRNG (modelled as a
stream of draws plus a position), and the Display collaborator. -/
structure VM where
  pc : Nat
  i : Nat
  sp : Nat
  delay : Nat
  sound : Nat
  rngIdx : Nat
  reg : Nat → Nat
  stack : Nat → Nat
  memory : Nat → Nat
  rng : Nat → Nat
  display : Display

/-- Model of `VM::load`: copies the program verbatim starting at 0x200, with
no bounds check (`std::copy`); bytes of an over-long program land past
address 4095, the model image of the C++ out-of-bounds write. -/
def VM.load (s : VM) (program : List Nat) : VM :=
  {s with memory := fun a =>
    if 0x200 ≤ a ∧ a < 0x200 + program.length then program.getD (a - 0x200) 0
    else s.memory a}

/-- Model of `VM::pop`: `std::exchange(stack_[--sp_], 0)`; the uint16 stack
pointer decrement wraps modulo 2^16. -/
def VM.pop (s : VM) : Nat × VM :=
  let sp1 := (s.sp + 65535) % 65536
  (s.stack sp1, {s with sp := sp1, stack := updateFn s.stack sp1 0})

/-- Model of `VM::peek`. -/
def VM.peek (s : VM) : Nat := s.stack ((s.sp + 65535) % 65536)

/-- Model of `VM::push`: `stack_[sp_++] = address`. -/
def VM.push (s : VM) (address : Nat) : VM :=
  {s with stack := updateFn s.stack s.sp address, sp := (s.sp + 1) % 65536}

/-- Model of `VM::rand_next`: one uniform draw in 0..255 from the generator,
advancing its state. -/
def VM.rand_next (s : VM) : Nat × VM :=
  (s.rng s.rngIdx % 256, {s with rngIdx := s.rngIdx + 1})

/-- Model of `VM::next_instruction`: `pc_ += 2` on a uint16. -/
def VM.next_instruction (s : VM) : VM := {s with pc := (s.pc + 2) % 65536}

/-- Model of `VM::skip_if`. -/
def VM.skip_if (s : VM) (condition : Bool) : VM :=
  if condition then s.next_instruction else s

/-- Model of `VM::current`: big-endian 16-bit fetch at the program counter. -/
def VM.current (s : VM) : Nat :=
  (s.memory s.pc <<< 8 ||| s.memory (s.pc + 1)) % 65536

/-- Model of `VM::wrapping_add`: sets VF to 1 exactly when the sum exceeds
255, and returns the sum wrapped to 8 bits. -/
def VM.wrapping_add (s : VM) (a b : Nat) : Nat × VM :=
  let result := a + b
  let s1 := {s with reg := updateFn s.reg 15 (if 255 < result then 1 else 0)}
  (if 255 < result then result - 256 else result, s1)

/-- Model of `VM::wrapping_sub`: sets VF to 1 exactly when no borrow occurs,
and returns the difference wrapped to 8 bits. -/
def VM.wrapping_sub (s : VM) (a b : Nat) : Nat × VM :=
  let result : Int := (a : Int) - (b : Int)
  let s1 := {s with reg := updateFn s.reg 15 (if 0 ≤ result then 1 else 0)}
  ((if result < 0 then 256 + result else result).toNat, s1)

/-- Model of `VM::execute_opcode_8`: secondary dispatch on the bottom nibble.
`vy` is copied on entry; `vx` is a reference, so each case reads the current
register file at use time. -/
def VM.execute_opcode_8 (s : VM) (inst : Nat) : VM :=
  let x := nth_4bit inst 2
  let vy := s.reg (nth_4bit inst 3)
  let n := nth_4bit inst 4
  if n = 0x0 then {s with reg := updateFn s.reg x vy}
  else if n = 0x1 then {s with reg := updateFn s.reg x (s.reg x ||| vy)}
  else if n = 0x2 then {s with reg := updateFn s.reg x (s.reg x &&& vy)}
  else if n = 0x3 then {s with reg := updateFn s.reg x (s.reg x ^^^ vy)}
  else if n = 0x4 then
    let p := s.wrapping_add (s.reg x) vy
    {p.2 with reg := updateFn p.2.reg x p.1}
  else if n = 0x5 then
    let p := s.wrapping_sub (s.reg x) vy
    {p.2 with reg := updateFn p.2.reg x p.1}
  else if n = 0x6 then
    let s1 := {s with reg := updateFn s.reg 15 (lsb (s.reg x))}
    {s1 with reg := updateFn s1.reg x (s1.reg x >>> 1)}
  else if n = 0x7 then
    let p := s.wrapping_sub vy (s.reg x)
    {p.2 with reg := updateFn p.2.reg x p.1}
  else if n = 0xE then
    let s1 := {s with reg := updateFn s.reg 15 (msb (s.reg x))}
    {s1 with reg := updateFn s1.reg x ((s1.reg x <<< 1) % 256)}
  else s

/-- Model of `VM::execute_opcode_f`: secondary dispatch on the bottom byte. -/
def VM.execute_opcode_f (s : VM) (inst : Nat) : VM :=
  let x := nth_4bit inst 2
  let b := bottom_8bit inst
  if b = 0x07 then {s with reg := updateFn s.reg x s.delay}
  else if b = 0x0A then {s with reg := updateFn s.reg x (s.display.pendingKey % 256)}
  else if b = 0x15 then {s with delay := s.reg x}
  else if b = 0x18 then {s with sound := s.reg x}
  else if b = 0x1E then {s with i := (s.i + s.reg x) % 65536}
  else if b = 0x29 then {s with i := (s.reg x * 5) % 65536}
  else if b = 0x33 then
    let vx := s.reg x
    let m1 := updateFn s.memory (s.i + 2) (vx % 10)
    let m2 := updateFn m1 (s.i + 1) (vx / 10 % 10)
    {s with memory := updateFn m2 s.i (vx / 10 / 10 % 10)}
  else if b = 0x55 then
    (List.range (x + 1)).foldl
      (fun st k => {st with memory := updateFn st.memory (st.i + k) (st.reg k)}) s
  else if b = 0x65 then
    (List.range (x + 1)).foldl
      (fun st k => {st with reg := updateFn st.reg k (st.memory (st.i + k))}) s
  else s

/-- Model of the `0xD000` case of `VM::execute`: reset VF, then XOR-composite
an n-row sprite read at the index register onto the display, setting VF on any
set-to-unset pixel transition. -/
def VM.draw_sprite (s : VM) (inst : Nat) : VM :=
  let vx := s.reg (nth_4bit inst 2)
  let vy := s.reg (nth_4bit inst 3)
  let n := nth_4bit inst 4
  let s0 := {s with reg := updateFn s.reg 15 0}
  (List.range n).foldl (fun st i =>
    let byte := st.memory (st.i + i)
    (List.range 8).foldl (fun st2 j =>
      if nth_bit byte j then
        let p := st2.display.set_pixel (vx + j) (vy + i) true
        let st3 := {st2 with display := p.2}
        if p.1 then {st3 with reg := updateFn st3.reg 15 1} else st3
      else st2) st) s0

/-- Model of `VM::execute`: primary dispatch on the top nibble of the word.
Cases 1nnn, 2nnn and Bnnn return without the trailing advance; every other
case, the 0x0000 family included, falls through to `next_instruction`. -/
def VM.execute (s : VM) (inst : Nat) : VM :=
  if inst &&& 0xF000 = 0x0000 then
    (if inst = 0x00E0 then {s with display := s.display.clear}
     else if inst = 0x00EE then
       let p := s.pop
       {p.2 with pc := p.1}
     else s).next_instruction
  else if inst &&& 0xF000 = 0x2000 then
    let s1 := s.push s.pc
    {s1 with pc := bottom_12bit inst}
  else if inst &&& 0xF000 = 0x1000 then {s with pc := bottom_12bit inst}
  else if inst &&& 0xF000 = 0x3000 then
    (s.skip_if (s.reg (nth_4bit inst 2) == bottom_8bit inst)).next_instruction
  else if inst &&& 0xF000 = 0x4000 then
    (s.skip_if (!(s.reg (nth_4bit inst 2) == bottom_8bit inst))).next_instruction
  else if inst &&& 0xF000 = 0x5000 then
    (s.skip_if (s.reg (nth_4bit inst 2) == s.reg (nth_4bit inst 3))).next_instruction
  else if inst &&& 0xF000 = 0x6000 then
    ({s with reg := updateFn s.reg (nth_4bit inst 2) (bottom_8bit inst)}).next_instruction
  else if inst &&& 0xF000 = 0x7000 then
    ({s with reg := updateFn s.reg (nth_4bit inst 2) ((s.reg (nth_4bit inst 2) + bottom_8bit inst) % 256)}).next_instruction
  else if inst &&& 0xF000 = 0x8000 then (s.execute_opcode_8 inst).next_instruction
  else if inst &&& 0xF000 = 0x9000 then
    (s.skip_if (!(s.reg (nth_4bit inst 2) == s.reg (nth_4bit inst 3)))).next_instruction
  else if inst &&& 0xF000 = 0xA000 then
    ({s with i := bottom_12bit inst}).next_instruction
  else if inst &&& 0xF000 = 0xB000 then
    {s with pc := (s.reg 0 + bottom_12bit inst) % 65536}
  else if inst &&& 0xF000 = 0xC000 then
    (let p := s.rand_next
     {p.2 with reg := updateFn p.2.reg (nth_4bit inst 2) (p.1 &&& bottom_8bit inst)}).next_instruction
  else if inst &&& 0xF000 = 0xD000 then (s.draw_sprite inst).next_instruction
  else if inst &&& 0xF000 = 0xE000 then
    (s.skip_if (if bottom_8bit inst == 0x9E then s.display.keys (s.reg (nth_4bit inst 2))
                else !(s.display.keys (s.reg (nth_4bit inst 2))))).next_instruction
  else if inst &&& 0xF000 = 0xF000 then (s.execute_opcode_f inst).next_instruction
  else s.next_instruction

/-- Model of the 60 Hz block of `VM::cycle`: each timer saturates at zero,
and a nonzero sound timer buzzes before its decrement. -/
def VM.timerTick (s : VM) : VM :=
  let s1 := if s.delay ≠ 0 then {s with delay := s.delay - 1} else s
  if s1.sound ≠ 0 then {s1 with display := s1.display.buzz, sound := s1.sound - 1} else s1

/-- Model of `VM::cycle`: the wall-clock gates of the two clocks are passed
in explicitly; the instruction is fetched before either gate is consulted. -/
def VM.cycle (s : VM) (instDue timerDue : Bool) : VM :=
  let inst := s.current
  let s1 := if instDue then s.execute inst else s
  if timerDue then s1.timerTick else s1

/-- The 80-byte fontset copied to address 0 by the VM constructor. -/
def chip8_fontset : List Nat :=
  [0xF0, 0x90, 0x90, 0x90, 0xF0,
   0x20, 0x60, 0x20, 0x20, 0x70,
   0xF0, 0x10, 0xF0, 0x80, 0xF0,
   0xF0, 0x10, 0xF0, 0x10, 0xF0,
   0x90, 0x90, 0xF0, 0x10, 0x10,
   0xF0, 0x80, 0xF0, 0x10, 0xF0,
   0xF0, 0x80, 0xF0, 0x90, 0xF0,
   0xF0, 0x10, 0x20, 0x40, 0x40,
   0xF0, 0x90, 0xF0, 0x90, 0xF0,
   0xF0, 0x90, 0xF0, 0x10, 0xF0,
   0xF0, 0x90, 0xF0, 0x90, 0x90,
   0xE0, 0x90, 0xE0, 0x90, 0xE0,
   0xF0, 0x80, 0x80, 0x80, 0xF0,
   0xE0, 0x90, 0x90, 0x90, 0xE0,
   0xF0, 0x80, 0xF0, 0x80, 0xF0,
   0xF0, 0x80, 0xF0, 0x80, 0x80]

/-- A fresh external display: blank pixels, no keys held. -/
def initDisplay : Display :=
  {pixels := fun _ => false, keys := fun _ => false, pendingKey := 0, buzzes := 0}

/-- Model of the VM constructor: zeroed state, pc at 0x200, fontset at 0,
generator seeded with a given stream. -/
def initVM (seed : Nat → Nat) : VM :=
  { pc := 0x200, i := 0, sp := 0, delay := 0, sound := 0, rngIdx := 0
  , reg := fun _ => 0, stack := fun _ => 0
  , memory := fun a => if a < 80 then chip8_fontset.getD a 0 else 0
  , rng := seed, display := initDisplay }

/-- A concrete freshly constructed machine, used as a test state. -/
def vm0 : VM := initVM fun _ => 0

/-- A machine about to execute a 00EE return: memory at the program counter
holds 00 EE, and the call stack holds the single return address 0x300. -/
def vmRet : VM :=
  {vm0 with
    sp := 1
    stack := updateFn (fun _ => 0) 0 0x300
    memory := fun a => if a = 0x201 then 0xEE else 0}

/-- A machine with V0 = 250 and V1 = 10, the add-with-carry test vector. -/
def vmAdd : VM := {vm0 with reg := fun k => if k = 0 then 250 else if k = 1 then 10 else 0}

/-- A machine with V3 = 0b10000001, the shift-flag test vector. -/
def vmShift : VM := {vm0 with reg := fun k => if k = 3 then 0x81 else 0}

/-- A machine with V2 = 157 and I = 0x300, the BCD test vector. -/
def vmBcd : VM := {vm0 with i := 0x300, reg := fun k => if k = 2 then 157 else 0}

/-- A machine with VF = 250 and V1 = 10, exercising 8xy4 at x = 15. -/
def vmVF : VM := {vm0 with reg := fun k => if k = 15 then 250 else if k = 1 then 10 else 0}

/-- A 3585-byte program, one byte longer than the 4096 - 0x200 limit. -/
def bigProg : List Nat := List.replicate 3585 7

end chip8

namespace chip8

set_option maxRecDepth 4096 in
/-- Decoding the fields of an encoded 8xyn word: the mask check of the
primary dispatch and the three nibble extractions, for any register indices
and low nibble. -/
theorem dec8 (x y n : Nat) (hx : x < 16) (hy : y < 16) (hn : n < 16) :
    (0x8000 + x * 256 + y * 16 + n) &&& 0xF000 = 0x8000
    ∧ nth_4bit (0x8000 + x * 256 + y * 16 + n) 2 = x
    ∧ nth_4bit (0x8000 + x * 256 + y * 16 + n) 3 = y
    ∧ nth_4bit (0x8000 + x * 256 + y * 16 + n) 4 = n := by
  have h : ∀ x y n : Fin 16,
      (0x8000 + x.val * 256 + y.val * 16 + n.val) &&& 0xF000 = 0x8000
      ∧ nth_4bit (0x8000 + x.val * 256 + y.val * 16 + n.val) 2 = x.val
      ∧ nth_4bit (0x8000 + x.val * 256 + y.val * 16 + n.val) 3 = y.val
      ∧ nth_4bit (0x8000 + x.val * 256 + y.val * 16 + n.val) 4 = n.val := by decide
  exact h ⟨x, hx⟩ ⟨y, hy⟩ ⟨n, hn⟩

set_option maxRecDepth 4096 in
/-- Decoding the fields of an encoded Fxbb word: the mask check of the
primary dispatch, the register-index nibble, and the bottom byte. -/
theorem decF (x b : Nat) (hx : x < 16) (hb : b < 256) :
    (0xF000 + x * 256 + b) &&& 0xF000 = 0xF000
    ∧ nth_4bit (0xF000 + x * 256 + b) 2 = x
    ∧ bottom_8bit (0xF000 + x * 256 + b) = b := by
  have h : ∀ x : Fin 16, ∀ b : Fin 256,
      (0xF000 + x.val * 256 + b.val) &&& 0xF000 = 0xF000
      ∧ nth_4bit (0xF000 + x.val * 256 + b.val) 2 = x.val
      ∧ bottom_8bit (0xF000 + x.val * 256 + b.val) = b.val := by decide
  exact h ⟨x, hx⟩ ⟨b, hb⟩

/-- A fold whose step preserves an observation of the state preserves it
over any list. -/
theorem foldl_pres {α β : Type} (g : VM → α) (f : VM → β → VM)
    (hf : ∀ st b, g (f st b) = g st) :
    ∀ (l : List β) (st : VM), g (l.foldl f st) = g st := by
  intro l
  induction l with
  | nil => intro st; rfl
  | cons a t ih => intro st; rw [List.foldl_cons, ih, hf]

/-- One timer-clock tick decrements each timer by one, saturating at zero. -/
theorem timerTick_eq (s : VM) :
    s.timerTick.delay = s.delay - 1 ∧ s.timerTick.sound = s.sound - 1 := by
  unfold VM.timerTick
  dsimp only
  split_ifs <;> refine ⟨?_, ?_⟩
  all_goals try dsimp only at *
  all_goals omega

/-- Iterated timer-clock ticks subtract their count from the delay timer,
saturating at zero. -/
theorem timerTick_iterate (n : Nat) : ∀ s : VM, (VM.timerTick^[n] s).delay = s.delay - n := by
  induction n with
  | zero => intro s; simp
  | succ k ih =>
    intro s
    rw [Function.iterate_succ_apply, ih s.timerTick, (timerTick_eq s).1]
    omega

/-- No 8xyn arithmetic or shift touches either timer. -/
theorem exec8_frame (s : VM) (inst : Nat) :
    (s.execute_opcode_8 inst).delay = s.delay ∧ (s.execute_opcode_8 inst).sound = s.sound := by
  unfold VM.execute_opcode_8 VM.wrapping_add VM.wrapping_sub
  dsimp only
  constructor
  · simp only [apply_ite VM.delay, ite_self]
  · simp only [apply_ite VM.sound, ite_self]

/-- Drawing a sprite touches only the display, VF, and collision state,
never either timer. -/
theorem draw_frame (s : VM) (inst : Nat) :
    (s.draw_sprite inst).delay = s.delay ∧ (s.draw_sprite inst).sound = s.sound := by
  unfold VM.draw_sprite
  dsimp only
  constructor
  · refine (foldl_pres VM.delay _ ?_ _ _).trans rfl
    intro st i
    dsimp only
    refine foldl_pres VM.delay _ ?_ _ _
    intro st2 j
    dsimp only
    split
    · split <;> rfl
    · rfl
  · refine (foldl_pres VM.sound _ ?_ _ _).trans rfl
    intro st i
    dsimp only
    refine foldl_pres VM.sound _ ?_ _ _
    intro st2 j
    dsimp only
    split
    · split <;> rfl
    · rfl

/-- Outside Fx15 and Fx18, the F family leaves both timers unchanged. -/
theorem execf_frame (s : VM) (inst : Nat)
    (h15 : bottom_8bit inst ≠ 0x15) (h18 : bottom_8bit inst ≠ 0x18) :
    (s.execute_opcode_f inst).delay = s.delay ∧ (s.execute_opcode_f inst).sound = s.sound := by
  unfold VM.execute_opcode_f
  dsimp only
  simp only [h15, h18, ite_false, if_false]
  split_ifs
  · exact ⟨rfl, rfl⟩
  · exact ⟨rfl, rfl⟩
  · exact ⟨rfl, rfl⟩
  · exact ⟨rfl, rfl⟩
  · exact ⟨rfl, rfl⟩
  · constructor
    · refine foldl_pres VM.delay _ ?_ _ _
      intro st b
      rfl
    · refine foldl_pres VM.sound _ ?_ _ _
      intro st b
      rfl
  · constructor
    · refine foldl_pres VM.delay _ ?_ _ _
      intro st b
      rfl
    · refine foldl_pres VM.sound _ ?_ _ _
      intro st b
      rfl
  · exact ⟨rfl, rfl⟩

/-- No execute step outside Fx15/Fx18 changes either timer. -/
theorem exec_timer_frame (s : VM) (inst : Nat)
    (hex : ¬(inst &&& 0xF000 = 0xF000 ∧ (bottom_8bit inst = 0x15 ∨ bottom_8bit inst = 0x18))) :
    (s.execute inst).delay = s.delay ∧ (s.execute inst).sound = s.sound := by
  by_cases hF : inst &&& 0xF000 = 0xF000
  · unfold VM.execute
    rw [hF]
    norm_num
    unfold VM.next_instruction
    dsimp only
    exact execf_frame s inst (fun h => hex ⟨hF, Or.inl h⟩) (fun h => hex ⟨hF, Or.inr h⟩)
  · unfold VM.execute VM.skip_if VM.next_instruction VM.pop VM.push VM.rand_next
    dsimp only
    simp only [hF, ite_false, if_false]
    constructor
    · simp only [apply_ite VM.delay, (exec8_frame s inst).1, (draw_frame s inst).1, ite_self]
    · simp only [apply_ite VM.sound, (exec8_frame s inst).2, (draw_frame s inst).2, ite_self]

/-- An over-long program is copied verbatim with no bounds check: every byte
lands at 0x200 plus its offset, including offsets that fall past the end of
the 4096-byte memory. -/
theorem load_unchecked_copy (s : VM) (prog : List Nat) (h : 3584 < prog.length) :
    (s.load prog).memory 4096 = prog.getD 3584 0
    ∧ ∀ a, a < prog.length → (s.load prog).memory (0x200 + a) = prog.getD a 0 := by
  unfold VM.load
  dsimp only
  constructor
  · rw [if_pos (by omega)]
  · intro a ha
    rw [if_pos (by omega)]
    norm_num

end chip8

namespace chip8

/-- Claim C1, counterexample: on a machine whose current instruction is 00EE
with a non-empty stack holding return address 0x300, the PC after execute is
not the popped return address (it is 0x302, the popped address plus 2). -/
theorem c1_counterexample :
    vmRet.current = 0x00EE ∧ 0 < vmRet.sp
    ∧ (vmRet.execute vmRet.current).pc ≠ vmRet.stack (vmRet.sp - 1) := by decide

/-- Claim C1 as amended: executing 00EE pops the return address into the PC
and then falls through to the generic advance, so the final PC is the popped
address plus 2 (mod 2^16), and the stack pointer drops by one. -/
theorem c1_return_pops_then_advances (s : VM) (h : s.current = 0x00EE)
    (h1 : 0 < s.sp) (h2 : s.sp < 65536) :
    (s.execute s.current).pc = (s.stack (s.sp - 1) + 2) % 65536
    ∧ (s.execute s.current).sp = s.sp - 1 := by
  rw [h]
  unfold VM.execute
  norm_num
  unfold VM.pop VM.next_instruction
  dsimp only
  have hsp1 : (s.sp + 65535) % 65536 = s.sp - 1 := by omega
  rw [hsp1]
  exact ⟨rfl, rfl⟩

/-- Claim C1, witness: the amended statement evaluated on the concrete
return state. -/
theorem c1_witness :
    (vmRet.current = 0x00EE ∧ 0 < vmRet.sp ∧ vmRet.sp < 65536)
    ∧ ((vmRet.execute vmRet.current).pc = (vmRet.stack (vmRet.sp - 1) + 2) % 65536
        ∧ (vmRet.execute vmRet.current).sp = vmRet.sp - 1) :=
  ⟨⟨by decide, by decide, by decide⟩,
   c1_return_pops_then_advances vmRet (by decide) (by decide) (by decide)⟩

/-- Claim C2, counterexample: executing 0x5001 on a fresh machine does not
advance the PC by exactly 2 (V0 = V0 makes the equality skip fire, so it
advances by 4). -/
theorem c2_counterexample : (vm0.execute 0x5001).pc ≠ vm0.pc + 2 := by decide

/-- Claim C2 as amended: the 5xy_ family dispatches on the top nibble alone,
so 0x5001 executes as the 5xy0 equality skip — with x = y = 0 it always
skips, advancing the PC by 4 and leaving all other core state unchanged —
while a word reaching no handler at all, such as 0x8008, advances the PC by
exactly 2 and leaves all other core state unchanged; neither halts. -/
theorem c2_unknown_opcode_behaviour (s : VM) :
    ((s.execute 0x5001).pc = (s.pc + 4) % 65536
      ∧ (s.execute 0x5001).reg = s.reg
      ∧ (s.execute 0x5001).i = s.i
      ∧ (s.execute 0x5001).sp = s.sp
      ∧ (s.execute 0x5001).stack = s.stack
      ∧ (s.execute 0x5001).memory = s.memory
      ∧ (s.execute 0x5001).delay = s.delay
      ∧ (s.execute 0x5001).sound = s.sound)
    ∧ ((s.execute 0x8008).pc = (s.pc + 2) % 65536
      ∧ (s.execute 0x8008).reg = s.reg
      ∧ (s.execute 0x8008).i = s.i
      ∧ (s.execute 0x8008).sp = s.sp
      ∧ (s.execute 0x8008).stack = s.stack
      ∧ (s.execute 0x8008).memory = s.memory
      ∧ (s.execute 0x8008).delay = s.delay
      ∧ (s.execute 0x8008).sound = s.sound) := by
  constructor
  · have hm : (0x5001 : Nat) &&& 0xF000 = 0x5000 := by decide
    have e2 : nth_4bit 0x5001 2 = 0 := by decide
    have e3 : nth_4bit 0x5001 3 = 0 := by decide
    unfold VM.execute
    rw [hm]
    norm_num
    unfold VM.skip_if
    rw [e2, e3, beq_self_eq_true]
    norm_num
    unfold VM.next_instruction
    dsimp only
    refine ⟨by omega, rfl, rfl, rfl, rfl, rfl, rfl, rfl⟩
  · have hm : (0x8008 : Nat) &&& 0xF000 = 0x8000 := by decide
    have e4 : nth_4bit 0x8008 4 = 8 := by decide
    unfold VM.execute
    rw [hm]
    norm_num
    unfold VM.execute_opcode_8
    rw [e4]
    norm_num
    unfold VM.next_instruction
    dsimp only
    refine ⟨rfl, rfl, rfl, rfl, rfl, rfl, rfl, rfl⟩

/-- Claim C3: evaluating `load` at the failing input. Loading a 3585-byte
program (one byte beyond the 4096 - 0x200 limit) proceeds unchecked and
writes memory past the end of the 4096-byte array: address 4096 receives the
program's last byte, where a fresh machine held 0. No error is surfaced to
the caller. -/
theorem c3_overlong_load_writes_past_end :
    (vm0.load bigProg).memory 4096 = 7 ∧ vm0.memory 4096 = 0 := by
  have hl : bigProg.length = 3585 := by unfold bigProg; exact List.length_replicate _ _
  constructor
  · unfold VM.load
    dsimp only
    rw [if_pos (by rw [hl]; omega)]
    rw [List.getD_eq_getElem _ _ (by rw [hl]; omega)]
    unfold bigProg
    rw [List.getElem_replicate]
  · rfl

/-- Claim C4: 8xy4 with x distinct from 15 sets Vx to the 8-bit wrapped sum
of Vx and Vy and sets VF to 1 exactly when the unmodulated sum exceeds 255,
else 0. -/
theorem c4_add_with_carry (s : VM) (x y : Nat) (hx : x < 16) (hy : y < 16) (hx15 : x ≠ 15)
    (ha : s.reg x < 256) (hb : s.reg y < 256) :
    (s.execute (0x8000 + x * 256 + y * 16 + 4)).reg x = (s.reg x + s.reg y) % 256
    ∧ (s.execute (0x8000 + x * 256 + y * 16 + 4)).reg 15
        = if 255 < s.reg x + s.reg y then 1 else 0 := by
  obtain ⟨hm, h2, h3, h4⟩ := dec8 x y 4 hx hy (by norm_num)
  unfold VM.execute
  rw [hm]
  norm_num
  unfold VM.execute_opcode_8
  rw [h2, h3, h4]
  norm_num
  unfold VM.wrapping_add VM.next_instruction
  dsimp only
  simp only [updateFn]
  constructor <;> split_ifs <;> omega

/-- Claim C4, witness: the add-with-carry theorem evaluated at V0 = 250 and
V1 = 10, the spec's carry test vector. -/
theorem c4_witness :
    ((0 : Nat) < 16 ∧ (1 : Nat) < 16 ∧ (0 : Nat) ≠ 15 ∧ vmAdd.reg 0 < 256 ∧ vmAdd.reg 1 < 256)
    ∧ ((vmAdd.execute (0x8000 + 0 * 256 + 1 * 16 + 4)).reg 0 = (vmAdd.reg 0 + vmAdd.reg 1) % 256
        ∧ (vmAdd.execute (0x8000 + 0 * 256 + 1 * 16 + 4)).reg 15
            = if 255 < vmAdd.reg 0 + vmAdd.reg 1 then 1 else 0) :=
  ⟨⟨by decide, by decide, by decide, by decide, by decide⟩,
   c4_add_with_carry vmAdd 0 1 (by decide) (by decide) (by decide) (by decide) (by decide)⟩

/-- Claim C5: 8xy6 with x distinct from 15 stores the pre-shift
least-significant bit of Vx into VF and then shifts Vx right by one. -/
theorem c5_shift_right_flag (s : VM) (x y : Nat) (hx : x < 16) (hy : y < 16) (hx15 : x ≠ 15) :
    (s.execute (0x8000 + x * 256 + y * 16 + 6)).reg 15 = lsb (s.reg x)
    ∧ (s.execute (0x8000 + x * 256 + y * 16 + 6)).reg x = s.reg x >>> 1 := by
  obtain ⟨hm, h2, h3, h4⟩ := dec8 x y 6 hx hy (by norm_num)
  unfold VM.execute
  rw [hm]
  norm_num
  unfold VM.execute_opcode_8
  rw [h2, h3, h4]
  norm_num
  unfold VM.next_instruction
  dsimp only
  simp only [updateFn]
  constructor <;> split_ifs <;> first | rfl | omega | (exfalso; omega)

/-- Claim C5, witness: the shift theorem evaluated at V3 = 0b10000001, the
spec's shift-flag test vector. -/
theorem c5_witness :
    ((3 : Nat) < 16 ∧ (0 : Nat) < 16 ∧ (3 : Nat) ≠ 15)
    ∧ ((vmShift.execute (0x8000 + 3 * 256 + 0 * 16 + 6)).reg 15 = lsb (vmShift.reg 3)
        ∧ (vmShift.execute (0x8000 + 3 * 256 + 0 * 16 + 6)).reg 3 = vmShift.reg 3 >>> 1) :=
  ⟨⟨by decide, by decide, by decide⟩,
   c5_shift_right_flag vmShift 3 0 (by decide) (by decide) (by decide)⟩

/-- Claim C6: with spare stack capacity, push followed by pop returns the
pushed 16-bit address, restores the stack pointer, and leaves the vacated
slot holding 0. -/
theorem c6_push_pop_roundtrip (s : VM) (a : Nat) (hsp : s.sp < 128) (ha : a < 65536) :
    (VM.pop (s.push a)).1 = a
    ∧ (VM.pop (s.push a)).2.sp = s.sp
    ∧ (VM.pop (s.push a)).2.stack s.sp = 0 := by
  unfold VM.push VM.pop
  dsimp only
  have hsp1 : ((s.sp + 1) % 65536 + 65535) % 65536 = s.sp := by omega
  rw [hsp1]
  simp [updateFn]

/-- Claim C6, witness: the round trip evaluated at a fresh machine and
address 0x234. -/
theorem c6_witness :
    (vm0.sp < 128 ∧ (0x234 : Nat) < 65536)
    ∧ ((VM.pop (vm0.push 0x234)).1 = 0x234
        ∧ (VM.pop (vm0.push 0x234)).2.sp = vm0.sp
        ∧ (VM.pop (vm0.push 0x234)).2.stack vm0.sp = 0) :=
  ⟨⟨by decide, by decide⟩, c6_push_pop_roundtrip vm0 0x234 (by decide) (by decide)⟩

/-- Claim C7: a timer-clock tick maps each timer value t to t - 1 saturating
at zero; an execute step of any word other than Fx15/Fx18 leaves both timers
unchanged; and a delay timer initialized to 60 is 0 after any 60 or more
ticks. -/
theorem c7_timers_saturating_and_independent (s : VM) :
    (s.timerTick.delay = s.delay - 1 ∧ s.timerTick.sound = s.sound - 1)
    ∧ (∀ inst, inst < 65536 →
        ¬(inst &&& 0xF000 = 0xF000 ∧ (bottom_8bit inst = 0x15 ∨ bottom_8bit inst = 0x18)) →
        (s.execute inst).delay = s.delay ∧ (s.execute inst).sound = s.sound)
    ∧ (∀ n, 60 ≤ n → (VM.timerTick^[n] {s with delay := 60}).delay = 0) := by
  refine ⟨timerTick_eq s, fun inst _ hex => exec_timer_frame s inst hex, fun n hn => ?_⟩
  rw [timerTick_iterate n]
  dsimp only
  omega

/-- Claim C7, witness: the timer theorem evaluated on a fresh machine, with
the instruction 0x6012 and exactly 60 ticks from a delay of 60. -/
theorem c7_witness :
    ((0x6012 : Nat) < 65536
      ∧ ¬((0x6012 : Nat) &&& 0xF000 = 0xF000
            ∧ (bottom_8bit 0x6012 = 0x15 ∨ bottom_8bit 0x6012 = 0x18))
      ∧ (60 : Nat) ≤ 60)
    ∧ (vm0.timerTick.delay = vm0.delay - 1 ∧ vm0.timerTick.sound = vm0.sound - 1)
    ∧ ((vm0.execute 0x6012).delay = vm0.delay ∧ (vm0.execute 0x6012).sound = vm0.sound)
    ∧ (VM.timerTick^[60] {vm0 with delay := 60}).delay = 0 :=
  ⟨⟨by decide, by decide, by decide⟩, (c7_timers_saturating_and_independent vm0).1,
   (c7_timers_saturating_and_independent vm0).2.1 0x6012 (by decide) (by decide),
   (c7_timers_saturating_and_independent vm0).2.2 60 (by decide)⟩

set_option maxRecDepth 8192 in
/-- Claim C8: Fx33 writes the base-10 hundreds, tens and units digits of Vx
at memory I, I+1 and I+2, and leaves every other memory cell unchanged. -/
theorem c8_bcd_store (s : VM) (x : Nat) (hx : x < 16) (hv : s.reg x < 256)
    (hb : s.i + 2 < 4096) :
    (s.execute (0xF000 + x * 256 + 0x33)).memory s.i = s.reg x / 100
    ∧ (s.execute (0xF000 + x * 256 + 0x33)).memory (s.i + 1) = s.reg x / 10 % 10
    ∧ (s.execute (0xF000 + x * 256 + 0x33)).memory (s.i + 2) = s.reg x % 10
    ∧ ∀ a, a ≠ s.i → a ≠ s.i + 1 → a ≠ s.i + 2 →
        (s.execute (0xF000 + x * 256 + 0x33)).memory a = s.memory a := by
  obtain ⟨hm, h2, hb8⟩ := decF x 0x33 hx (by norm_num)
  unfold VM.execute
  rw [hm]
  norm_num
  unfold VM.execute_opcode_f
  rw [h2, hb8]
  norm_num
  unfold VM.next_instruction
  dsimp only
  simp only [updateFn]
  refine ⟨?_, ?_, ?_, ?_⟩
  · split_ifs <;> omega
  · split_ifs <;> omega
  · split_ifs <;> omega
  · intro a ha1 ha2 ha3
    split_ifs <;> first | rfl | (exfalso; omega)

/-- Claim C8, witness: the BCD theorem evaluated at V2 = 157, I = 0x300, the
spec's BCD test vector. -/
theorem c8_witness :
    ((2 : Nat) < 16 ∧ vmBcd.reg 2 < 256 ∧ vmBcd.i + 2 < 4096)
    ∧ ((vmBcd.execute (0xF000 + 2 * 256 + 0x33)).memory vmBcd.i = vmBcd.reg 2 / 100
        ∧ (vmBcd.execute (0xF000 + 2 * 256 + 0x33)).memory (vmBcd.i + 1) = vmBcd.reg 2 / 10 % 10
        ∧ (vmBcd.execute (0xF000 + 2 * 256 + 0x33)).memory (vmBcd.i + 2) = vmBcd.reg 2 % 10) :=
  ⟨⟨by decide, by decide, by decide⟩,
   ⟨(c8_bcd_store vmBcd 2 (by decide) (by decide) (by decide)).1,
    (c8_bcd_store vmBcd 2 (by decide) (by decide) (by decide)).2.1,
    (c8_bcd_store vmBcd 2 (by decide) (by decide) (by decide)).2.2.1⟩⟩

set_option maxRecDepth 8192 in
/-- Claim C9: when x = 15, the 8xy4, 8xy5 and 8xy7 opcodes leave VF holding
the wrapped arithmetic result, the carry or borrow flag written first by the
wrapping helper having been overwritten by the assignment of the result. -/
theorem c9_vf_overwritten_by_result (s : VM) (y : Nat) (hy : y < 16)
    (ha : s.reg 15 < 256) (hb : s.reg y < 256) :
    (s.execute (0x8000 + 15 * 256 + y * 16 + 4)).reg 15 = (s.reg 15 + s.reg y) % 256
    ∧ (s.execute (0x8000 + 15 * 256 + y * 16 + 5)).reg 15 = (s.reg 15 + 256 - s.reg y) % 256
    ∧ (s.execute (0x8000 + 15 * 256 + y * 16 + 7)).reg 15 = (s.reg y + 256 - s.reg 15) % 256 := by
  refine ⟨?_, ?_, ?_⟩
  · obtain ⟨hm, h2, h3, h4⟩ := dec8 15 y 4 (by norm_num) hy (by norm_num)
    unfold VM.execute
    rw [hm]
    norm_num
    unfold VM.execute_opcode_8
    rw [h2, h3, h4]
    norm_num
    unfold VM.wrapping_add VM.next_instruction
    dsimp only
    simp only [updateFn]
    split_ifs <;> first | rfl | omega
  · obtain ⟨hm, h2, h3, h4⟩ := dec8 15 y 5 (by norm_num) hy (by norm_num)
    unfold VM.execute
    rw [hm]
    norm_num
    unfold VM.execute_opcode_8
    rw [h2, h3, h4]
    norm_num
    unfold VM.wrapping_sub VM.next_instruction
    dsimp only
    simp only [updateFn]
    split_ifs <;> first | rfl | omega
  · obtain ⟨hm, h2, h3, h4⟩ := dec8 15 y 7 (by norm_num) hy (by norm_num)
    unfold VM.execute
    rw [hm]
    norm_num
    unfold VM.execute_opcode_8
    rw [h2, h3, h4]
    norm_num
    unfold VM.wrapping_sub VM.next_instruction
    dsimp only
    simp only [updateFn]
    split_ifs <;> first | rfl | omega

/-- Claim C9, witness: the VF-overwrite theorem evaluated at VF = 250 and
V1 = 10. -/
theorem c9_witness :
    ((1 : Nat) < 16 ∧ vmVF.reg 15 < 256 ∧ vmVF.reg 1 < 256)
    ∧ ((vmVF.execute (0x8000 + 15 * 256 + 1 * 16 + 4)).reg 15 = (vmVF.reg 15 + vmVF.reg 1) % 256
        ∧ (vmVF.execute (0x8000 + 15 * 256 + 1 * 16 + 5)).reg 15
            = (vmVF.reg 15 + 256 - vmVF.reg 1) % 256
        ∧ (vmVF.execute (0x8000 + 15 * 256 + 1 * 16 + 7)).reg 15
            = (vmVF.reg 1 + 256 - vmVF.reg 15) % 256) :=
  ⟨⟨by decide, by decide, by decide⟩,
   c9_vf_overwritten_by_result vmVF 1 (by decide) (by decide) (by decide)⟩

set_option maxRecDepth 8192 in
/-- Claim C10: Fx55 and Fx65 leave the index register unchanged after the
transfer (no post-increment), Fx55 leaves the whole register file unchanged,
and Fx65 leaves the whole memory unchanged. -/
theorem c10_bulk_transfer_frame (s : VM) (x : Nat) (hx : x < 16) (hbound : s.i + x < 4096) :
    (s.execute (0xF000 + x * 256 + 0x55)).i = s.i
    ∧ (s.execute (0xF000 + x * 256 + 0x55)).reg = s.reg
    ∧ (s.execute (0xF000 + x * 256 + 0x65)).i = s.i
    ∧ (s.execute (0xF000 + x * 256 + 0x65)).memory = s.memory := by
  obtain ⟨hm5, h25, hb5⟩ := decF x 0x55 hx (by norm_num)
  obtain ⟨hm6, h26, hb6⟩ := decF x 0x65 hx (by norm_num)
  refine ⟨?_, ?_, ?_, ?_⟩
  · unfold VM.execute
    rw [hm5]
    norm_num
    unfold VM.execute_opcode_f
    rw [h25, hb5]
    norm_num
    unfold VM.next_instruction
    dsimp only
    refine foldl_pres VM.i _ ?_ _ _
    intro st b
    rfl
  · unfold VM.execute
    rw [hm5]
    norm_num
    unfold VM.execute_opcode_f
    rw [h25, hb5]
    norm_num
    unfold VM.next_instruction
    dsimp only
    refine foldl_pres VM.reg _ ?_ _ _
    intro st b
    rfl
  · unfold VM.execute
    rw [hm6]
    norm_num
    unfold VM.execute_opcode_f
    rw [h26, hb6]
    norm_num
    unfold VM.next_instruction
    dsimp only
    refine foldl_pres VM.i _ ?_ _ _
    intro st b
    rfl
  · unfold VM.execute
    rw [hm6]
    norm_num
    unfold VM.execute_opcode_f
    rw [h26, hb6]
    norm_num
    unfold VM.next_instruction
    dsimp only
    refine foldl_pres VM.memory _ ?_ _ _
    intro st b
    rfl

/-- Claim C10, witness: the bulk-transfer frame theorem evaluated at x = 5
on a fresh machine. -/
theorem c10_witness :
    ((5 : Nat) < 16 ∧ vm0.i + 5 < 4096)
    ∧ ((vm0.execute (0xF000 + 5 * 256 + 0x55)).i = vm0.i
        ∧ (vm0.execute (0xF000 + 5 * 256 + 0x55)).reg = vm0.reg
        ∧ (vm0.execute (0xF000 + 5 * 256 + 0x65)).i = vm0.i
        ∧ (vm0.execute (0xF000 + 5 * 256 + 0x65)).memory = vm0.memory) :=
  ⟨⟨by decide, by decide⟩, c10_bulk_transfer_frame vm0 5 (by decide) (by decide)⟩

end chip8
